import Mathlib

/-!
Shallow embedding of `Dhurzo/instagram-image-auto-cropper`.

The repository contains two near-duplicate pipeline variants:
`src/main.rs` (`process_file`, the structure-preserving variant) and
`src/bin/script.rs` (`process_image`, the legacy flat-output variant).
Definitions suffixed `_main` come from `src/main.rs`, those suffixed
`_script` from `src/bin/script.rs`; functions whose bodies are identical
in the two files are embedded once.

Modelling conventions:
- a decoded raster (`image::DynamicImage`) is `Image`: width, height and a
  total pixel map; pixel values are an RGB triple with an optional alpha;
- `f32` arithmetic in `crop_to_aspect_center` is modelled by exact
  rationals (`ℚ`): the tolerance literal `1e-6` becomes `1/1000000`, and
  Rust's `f32::round` (half away from zero) agrees with `round : ℚ → ℤ`
  (half up) on the non-negative values that occur here; the cast
  `as u32`, which saturates below at 0, is `Int.toNat`;
- the EXIF read (`fix_orientation`'s interaction with the `exif` crate)
  is abstracted into the inductive `ExifRead` of its possible outcomes;
- the Lanczos resampling kernel of `resize_exact` is an external codec
  collaborator; the embedding fixes its output dimensions exactly and
  fills pixels with a simple nearest-sample map.
-/

namespace IGCrop

/-- A pixel value: RGB plus optional alpha channel. -/
structure Pixel where
  r : ℕ
  g : ℕ
  b : ℕ
  a : Option ℕ
deriving DecidableEq

/-- A decoded in-memory raster, after `image::open`: width, height and a
total map from coordinates to pixel values. -/
structure Image where
  width : ℕ
  height : ℕ
  pixel : ℕ → ℕ → Pixel

/-- `image` crate `fliph`: mirror across the vertical axis. -/
def fliph (img : Image) : Image :=
  ⟨img.width, img.height, fun x y => img.pixel (img.width - 1 - x) y⟩

/-- `image` crate `flipv`: mirror across the horizontal axis. -/
def flipv (img : Image) : Image :=
  ⟨img.width, img.height, fun x y => img.pixel x (img.height - 1 - y)⟩

/-- `image` crate `rotate90`: rotate 90 degrees clockwise; dimensions swap. -/
def rotate90 (img : Image) : Image :=
  ⟨img.height, img.width, fun x y => img.pixel y (img.height - 1 - x)⟩

/-- `image` crate `rotate180`: rotate 180 degrees. -/
def rotate180 (img : Image) : Image :=
  ⟨img.width, img.height, fun x y => img.pixel (img.width - 1 - x) (img.height - 1 - y)⟩

/-- `image` crate `rotate270`: rotate 270 degrees clockwise; dimensions swap. -/
def rotate270 (img : Image) : Image :=
  ⟨img.height, img.width, fun x y => img.pixel (img.width - 1 - y) x⟩

/-- `image` crate `crop_imm(x0, y0, w, h)`: the sub-view of the given
rectangle (the call sites of this repository keep the rectangle inside the
source bounds, see `C7_crop_in_bounds`). -/
def crop_imm (img : Image) (x0 y0 w h : ℕ) : Image :=
  ⟨w, h, fun x y => img.pixel (x0 + x) (y0 + y)⟩

/-- Alpha flattening before JPEG encode (`to_rgb8` / `to_rgb16` in
`process_file`): the alpha channel is dropped, not composited. -/
def to_rgb (img : Image) : Image :=
  ⟨img.width, img.height, fun x y =>
    let p := img.pixel x y
    ⟨p.r, p.g, p.b, none⟩⟩

/-- `image` crate `resize_exact(w, h, Lanczos3)`: output has exactly the
requested dimensions.  The resampling kernel itself is an external codec
collaborator; pixels are filled with a plain nearest-sample map. -/
def resize_exact (img : Image) (w h : ℕ) : Image :=
  ⟨w, h, fun x y => img.pixel (x * img.width / w) (y * img.height / h)⟩

/-- The possible outcomes of reading the EXIF orientation of a source
file, as distinguished by `fix_orientation` in `src/main.rs`:
opening the file can fail (`File::open`), the container can fail to parse
(`read_from_container`), the orientation tag can be absent
(`get_field` returns `None`), the value can have a non-`Short` type,
the `Short` vector can be empty, or a code `n` is read. -/
inductive ExifRead where
  | ioError
  | containerError
  | noOrientationTag
  | nonShortValue
  | emptyVector
  | code (n : ℕ)
deriving DecidableEq

/-- `fix_orientation` of `src/main.rs` (lines 187-216): `File::open`
failure propagates as `Err` (the `?`); every EXIF-level failure returns
the buffer unchanged; codes 1-8 apply the transform table and any other
code is the identity. -/
def fix_orientation_main (e : ExifRead) (img : Image) : Except Unit Image :=
  match e with
  | .ioError => .error ()
  | .containerError => .ok img
  | .noOrientationTag => .ok img
  | .nonShortValue => .ok img
  | .emptyVector => .ok img
  | .code n =>
    match n with
    | 1 => .ok img
    | 2 => .ok (fliph img)
    | 3 => .ok (rotate180 img)
    | 4 => .ok (flipv img)
    | 5 => .ok (fliph (rotate90 img))
    | 6 => .ok (rotate90 img)
    | 7 => .ok (fliph (rotate270 img))
    | 8 => .ok (rotate270 img)
    | _ => .ok img

/-- `fix_orientation` of `src/bin/script.rs` (lines 172-188): `File::open`
and `read_from_container` failures propagate as `Err` (both behind `?`);
in every other case — any code value, missing tag, non-uint value — the
buffer is returned unchanged: no transform is ever applied. -/
def fix_orientation_script (e : ExifRead) (img : Image) : Except Unit Image :=
  match e with
  | .ioError => .error ()
  | .containerError => .error ()
  | _ => .ok img

/-- The orientation stage of `process_file` (`src/main.rs` lines 84-87):
an `Err` from `fix_orientation` falls back to the original buffer. -/
def orient_stage (e : ExifRead) (img : Image) : Image :=
  match fix_orientation_main e img with
  | .ok i => i
  | .error _ => img

/-- The orientation stage of `process_image` (`src/bin/script.rs`
lines 80-83): an `Err` falls back to the original buffer. -/
def orient_stage_script (e : ExifRead) (img : Image) : Image :=
  match fix_orientation_script e img with
  | .ok i => i
  | .error _ => img

/-- `crop_to_aspect_center` (identical in `src/main.rs` lines 168-185 and
`src/bin/script.rs` lines 153-170), with `f32` modelled by `ℚ`. -/
def crop_to_aspect_center (img : Image) (target_aspect : ℚ) : Image :=
  let w := img.width
  let h := img.height
  let img_aspect : ℚ := (w : ℚ) / (h : ℚ)
  if |img_aspect - target_aspect| < 1 / 1000000 then
    img
  else if target_aspect < img_aspect then
    let new_w : ℕ := (round (target_aspect * (h : ℚ))).toNat
    let x0 := (w - new_w) / 2
    crop_imm img x0 0 new_w h
  else
    let new_h : ℕ := (round ((w : ℚ) / target_aspect)).toNat
    let y0 := (h - new_h) / 2
    crop_imm img 0 y0 w new_h

/-- The run mode (`Mode` in both files): `auto`, `vertical`, `horizontal`. -/
inductive Mode where
  | auto
  | vertical
  | horizontal
deriving DecidableEq

/-- Instagram preset constants. -/
def INSTAGRAM_WIDTH : ℕ := 1080

def INSTAGRAM_HORIZONTAL_HEIGHT : ℕ := 566

def INSTAGRAM_VERTICAL_HEIGHT : ℕ := 1350

/-- Mode resolution of `process_file` (`src/main.rs` lines 91-96): `Auto`
becomes `Horizontal` when `w >= h`, else `Vertical`; fixed modes pass
through. -/
def resolve_mode (mode : Mode) (w h : ℕ) : Mode :=
  match mode with
  | .auto => if w ≥ h then .horizontal else .vertical
  | other => other

/-- Target dimensions of a resolved mode (`src/main.rs` lines 98-102);
the `Auto` arm is `unreachable!()` in the source, modelled as `none`. -/
def target_dims : Mode → Option (ℕ × ℕ)
  | .horizontal => some (INSTAGRAM_WIDTH, INSTAGRAM_HORIZONTAL_HEIGHT)
  | .vertical => some (INSTAGRAM_WIDTH, INSTAGRAM_VERTICAL_HEIGHT)
  | .auto => none

/-- Target selection of `process_image` (`src/bin/script.rs` lines 85-95):
`Auto` picks the horizontal preset only when `width > height` (strict). -/
def select_target_script (mode : Mode) (w h : ℕ) : ℕ × ℕ :=
  match mode with
  | .auto =>
    if w > h then (INSTAGRAM_WIDTH, INSTAGRAM_HORIZONTAL_HEIGHT)
    else (INSTAGRAM_WIDTH, INSTAGRAM_VERTICAL_HEIGHT)
  | .horizontal => (INSTAGRAM_WIDTH, INSTAGRAM_HORIZONTAL_HEIGHT)
  | .vertical => (INSTAGRAM_WIDTH, INSTAGRAM_VERTICAL_HEIGHT)

/-- The resize decision and call (identical in `src/main.rs` lines 109-115
and `src/bin/script.rs` lines 102-108): if the cropped buffer is smaller
than the target in either axis, the final dimensions are the cropped ones,
else the target ones; `resize_exact` is called with that pair. -/
def resize_stage (cropped : Image) (target_w target_h : ℕ) : Image :=
  let fd : ℕ × ℕ :=
    if cropped.width < target_w ∨ cropped.height < target_h then
      (cropped.width, cropped.height)
    else
      (target_w, target_h)
  resize_exact cropped fd.1 fd.2

/-- Output codec selection (`ImageOutputFormat` in `src/main.rs`): JPEG
carries the quality byte; PNG and WebP take no parameter. -/
inductive EncFormat where
  | jpeg (quality : ℕ)
  | png
  | webp
deriving DecidableEq

/-- ASCII lowercasing, modelling Rust `str::to_lowercase` (and, applied to
both sides of an equality, `eq_ignore_ascii_case`) on the ASCII extension
and format strings this program compares. -/
def ascii_lower (s : String) : String :=
  ⟨s.data.map Char.toLower⟩

/-- Extension resolution of `process_file` (`src/main.rs` lines 123-141):
format string lowercased; `jpeg`/`jpg` rewrite the output extension to
`jpg`; `png` and `webp` rewrite to themselves; ANY other format string
(including `keep` and unrecognized strings) keeps the source file's
extension unchanged, or `jpg` when the source has none. -/
def resolve_out_ext (format : String) (src_ext : Option String) : String :=
  let f := ascii_lower format
  if f = "jpeg" ∨ f = "jpg" then "jpg"
  else if f = "png" then "png"
  else if f = "webp" then "webp"
  else
    match src_ext with
    | some e => e
    | none => "jpg"

/-- Codec choice from the resolved extension (`src/main.rs` lines 145-162,
`eq_ignore_ascii_case` modelled by `ascii_lower` equality): `jpg`/`jpeg` →
JPEG with the quality byte, `png` → PNG, `webp` → WEBP, anything else →
PNG (the final `else` arm writes `ImageOutputFormat::Png`). -/
def codec_for_ext (ext : String) (quality : ℕ) : EncFormat :=
  if ascii_lower ext = "jpg" ∨ ascii_lower ext = "jpeg" then .jpeg quality
  else if ascii_lower ext = "png" then .png
  else if ascii_lower ext = "webp" then .webp
  else .png

/-- An encoded output file: codec used and the buffer handed to it. -/
structure Encoded where
  fmt : EncFormat
  img : Image

/-- The encode tail of `process_file` (`src/main.rs` lines 123-162):
resolve the output extension, pick the codec from it, and flatten alpha
(`to_rgb`) exactly on the JPEG branch. -/
def encode_main (format : String) (src_ext : Option String) (quality : ℕ)
    (img : Image) : Encoded :=
  let ext := resolve_out_ext format src_ext
  match codec_for_ext ext quality with
  | .jpeg q => ⟨.jpeg q, to_rgb img⟩
  | .png => ⟨.png, img⟩
  | .webp => ⟨.webp, img⟩

/-- `image::ImageFormat` as used by `src/bin/script.rs` (no quality). -/
inductive ImageFormat where
  | jpeg
  | png
  | webp
deriving DecidableEq

/-- Format dispatch of `process_image` (`src/bin/script.rs` lines
113-148): match on the raw format string (no lowercasing): `jpeg`/`jpg`,
`png`, `webp` rewrite the extension and encode; `keep` maps the source
extension (lowercased) with `jpg` as fallback extension for other
extensions, writing nothing when the source has no extension; any other
string is a per-file `anyhow::bail!` error.  Result: `none` when no file
is written, otherwise the output extension and codec. -/
def script_format_dispatch (format : String) (src_ext : Option String) :
    Except String (Option (String × ImageFormat)) :=
  if format = "jpeg" ∨ format = "jpg" then .ok (some ("jpg", .jpeg))
  else if format = "png" then .ok (some ("png", .png))
  else if format = "webp" then .ok (some ("webp", .webp))
  else if format = "keep" then
    match src_ext with
    | none => .ok none
    | some e =>
      if ascii_lower e = "jpg" ∨ ascii_lower e = "jpeg" then .ok (some (e, .jpeg))
      else if ascii_lower e = "png" then .ok (some (e, .png))
      else if ascii_lower e = "webp" then .ok (some (e, .webp))
      else .ok (some ("jpg", .jpeg))
  else .error ("Formato no soportado: " ++ format)

/-- The per-file boundary of the legacy dispatcher (`src/bin/script.rs`
lines 63-72): `process_image`'s `Err` is caught and logged for that file
(`eprintln!`) and the batch continues; one outcome per dispatched file. -/
def script_run_batch (format : String) (files : List (Option String)) :
    List (Except String (Option (String × ImageFormat))) :=
  files.map (fun src_ext => script_format_dispatch format src_ext)

/-- A filesystem path split as directory components, file stem and
optional extension (the fields Rust's `Path` exposes here). -/
structure Fpath where
  dirs : List String
  stem : String
  ext : Option String
deriving DecidableEq

/-- `Path::strip_prefix`: drop the root's components when they are a
prefix of the path's directories. -/
def relativeTo (root : List String) (p : Fpath) : Option Fpath :=
  if root.isPrefixOf p.dirs then
    some ⟨p.dirs.drop root.length, p.stem, p.ext⟩
  else
    none

/-- `PathBuf::set_extension`. -/
def set_ext (p : Fpath) (e : String) : Fpath :=
  ⟨p.dirs, p.stem, some e⟩

/-- Output path of `process_file` (`src/main.rs` lines 117-121):
`out_dir.join(path.strip_prefix(in_dir).unwrap_or(path))`; the extension
is rewritten afterwards by the format resolution (passed in here as
`new_ext`, see `resolve_out_ext`). -/
def out_path_main (in_dir out_dir : List String) (p : Fpath)
    (new_ext : String) : Fpath :=
  let rel := (relativeTo in_dir p).getD p
  set_ext ⟨out_dir ++ rel.dirs, rel.stem, rel.ext⟩ new_ext

/-- Output path of `process_image` (`src/bin/script.rs` lines 110-111):
`out_dir` with the source's file name pushed — the relative directory
component is discarded. -/
def out_path_script (out_dir : List String) (p : Fpath) : Fpath :=
  ⟨out_dir, p.stem, p.ext⟩

/-! ### Concrete sample inputs -/

/-- A concrete 2×1 sample buffer. -/
def imgTwoOne : Image :=
  ⟨2, 1, fun _ _ => ⟨0, 0, 0, none⟩⟩

/-- A concrete 4×2 sample buffer (aspect 2, with an alpha channel). -/
def imgFourTwo : Image :=
  ⟨4, 2, fun _ _ => ⟨1, 2, 3, some 4⟩⟩

/-- A concrete source path `in/sub/a.png`. -/
def pInSub : Fpath :=
  ⟨["in", "sub"], "a", some "png"⟩

/-! ### Helper lemmas -/

/-- Rounding a rational that is at most `n` gives at most `n`. -/
lemma round_toNat_le_of_le {q : ℚ} {n : ℕ} (h : q ≤ (n : ℚ)) :
    (round q).toNat ≤ n := by
  have h2 : ⌊(n : ℚ) + 1 / 2⌋ = (n : ℤ) := by
    rw [show ((n : ℚ) + 1 / 2 : ℚ) = ((n : ℤ) : ℚ) + 1 / 2 by push_cast; ring,
      Int.floor_int_add]
    norm_num
  have h1 : round q ≤ (n : ℤ) := by
    rw [round_eq]
    calc ⌊q + 1 / 2⌋ ≤ ⌊(n : ℚ) + 1 / 2⌋ := Int.floor_mono (by linarith)
    _ = (n : ℤ) := h2
  omega

/-! ### C1: orientation corrector transform table -/

/-- C1 (amended): in `src/main.rs`, `fix_orientation` applies exactly the
documented EXIF table — 1 identity, 2 horizontal flip, 3 rotate 180,
4 vertical flip, 5 rotate 90 then horizontal flip, 6 rotate 90 clockwise,
7 rotate 270 then horizontal flip, 8 rotate 270 clockwise — and every
missing/unreadable/other-code outcome yields the identity (an I/O error is
caught by the caller's fallback); the legacy `src/bin/script.rs` corrector,
by contrast, returns the buffer unchanged for every orientation code.  The
trailing conjuncts pin the pixel arrangement of each primitive transform. -/
theorem C1_orient_table (img : Image) (n : ℕ) (h : ¬(1 ≤ n ∧ n ≤ 8)) :
    fix_orientation_main (.code n) img = .ok img
    ∧ fix_orientation_main (.code 1) img = .ok img
    ∧ fix_orientation_main (.code 2) img = .ok (fliph img)
    ∧ fix_orientation_main (.code 3) img = .ok (rotate180 img)
    ∧ fix_orientation_main (.code 4) img = .ok (flipv img)
    ∧ fix_orientation_main (.code 5) img = .ok (fliph (rotate90 img))
    ∧ fix_orientation_main (.code 6) img = .ok (rotate90 img)
    ∧ fix_orientation_main (.code 7) img = .ok (fliph (rotate270 img))
    ∧ fix_orientation_main (.code 8) img = .ok (rotate270 img)
    ∧ fix_orientation_main .containerError img = .ok img
    ∧ fix_orientation_main .noOrientationTag img = .ok img
    ∧ fix_orientation_main .nonShortValue img = .ok img
    ∧ fix_orientation_main .emptyVector img = .ok img
    ∧ orient_stage .ioError img = img
    ∧ (∀ e, orient_stage_script e img = img)
    ∧ (rotate90 img).width = img.height
    ∧ (rotate90 img).height = img.width
    ∧ (∀ x y, (rotate90 img).pixel x y = img.pixel y (img.height - 1 - x))
    ∧ (∀ x y, (fliph img).pixel x y = img.pixel (img.width - 1 - x) y)
    ∧ (∀ x y, (flipv img).pixel x y = img.pixel x (img.height - 1 - y))
    ∧ (∀ x y, (rotate180 img).pixel x y =
        img.pixel (img.width - 1 - x) (img.height - 1 - y))
    ∧ (rotate270 img).width = img.height
    ∧ (rotate270 img).height = img.width
    ∧ (∀ x y, (rotate270 img).pixel x y = img.pixel (img.width - 1 - y) x) := by
  refine ⟨?_, rfl, rfl, rfl, rfl, rfl, rfl, rfl, rfl, rfl, rfl, rfl, rfl, rfl,
    ?_, rfl, rfl, fun x y => rfl, fun x y => rfl, fun x y => rfl,
    fun x y => rfl, rfl, rfl, fun x y => rfl⟩
  · rcases n with _|_|_|_|_|_|_|_|_|n
    · rfl
    · exact absurd ⟨by omega, by omega⟩ h
    · exact absurd ⟨by omega, by omega⟩ h
    · exact absurd ⟨by omega, by omega⟩ h
    · exact absurd ⟨by omega, by omega⟩ h
    · exact absurd ⟨by omega, by omega⟩ h
    · exact absurd ⟨by omega, by omega⟩ h
    · exact absurd ⟨by omega, by omega⟩ h
    · exact absurd ⟨by omega, by omega⟩ h
    · rfl
  · intro e
    cases e <;> rfl

/-- C1 witness: code 10 is outside the table and is the identity. -/
theorem C1_orient_table_wit :
    fix_orientation_main (.code 10) imgTwoOne = .ok imgTwoOne :=
  (C1_orient_table imgTwoOne 10 (by decide)).1

/-- C1 counterexample: the legacy corrector (`src/bin/script.rs`) does not
apply the documented transform for code 6: on a 2×1 buffer it returns the
buffer unchanged (width still 2), while rotate-90-clockwise has width 1. -/
theorem C1_cex :
    fix_orientation_script (.code 6) imgTwoOne = .ok imgTwoOne
    ∧ imgTwoOne.width = 2
    ∧ (rotate90 imgTwoOne).width = 1 :=
  ⟨rfl, rfl, rfl⟩

/-! ### C2: center-crop algorithm -/

/-- C2 (confirmed): for every buffer with positive dimensions and every
target aspect ratio, `crop_to_aspect_center` returns the buffer unchanged
when source and target aspect agree within tolerance `1e-6`; otherwise,
when the source aspect exceeds the target aspect it keeps the full height
and crops the width to `round(target_aspect * height)` at horizontal
offset `(width - new_width) / 2` (integer floor division); otherwise it
keeps the full width and crops the height to `round(width / target_aspect)`
at the analogous centered vertical offset.  (`f32` modelled by `ℚ`.) -/
theorem C2_crop_center (img : Image) (t : ℚ)
    (hw : 0 < img.width) (hh : 0 < img.height) (ht : 0 < t) :
    (|(img.width : ℚ) / (img.height : ℚ) - t| < 1 / 1000000 →
      crop_to_aspect_center img t = img)
    ∧ (¬ |(img.width : ℚ) / (img.height : ℚ) - t| < 1 / 1000000 →
        t < (img.width : ℚ) / (img.height : ℚ) →
        (crop_to_aspect_center img t).height = img.height
        ∧ (crop_to_aspect_center img t).width =
            (round (t * (img.height : ℚ))).toNat
        ∧ ∀ x y, (crop_to_aspect_center img t).pixel x y =
            img.pixel
              ((img.width - (round (t * (img.height : ℚ))).toNat) / 2 + x) y)
    ∧ (¬ |(img.width : ℚ) / (img.height : ℚ) - t| < 1 / 1000000 →
        ¬ t < (img.width : ℚ) / (img.height : ℚ) →
        (crop_to_aspect_center img t).width = img.width
        ∧ (crop_to_aspect_center img t).height =
            (round ((img.width : ℚ) / t)).toNat
        ∧ ∀ x y, (crop_to_aspect_center img t).pixel x y =
            img.pixel x
              ((img.height - (round ((img.width : ℚ) / t)).toNat) / 2 + y)) := by
  refine ⟨fun h1 => ?_, fun h1 h2 => ?_, fun h1 h2 => ?_⟩
  · simp only [crop_to_aspect_center]
    rw [if_pos h1]
  · simp only [crop_to_aspect_center]
    rw [if_neg h1, if_pos h2]
    exact ⟨rfl, rfl, fun x y => by simp [crop_imm]⟩
  · simp only [crop_to_aspect_center]
    rw [if_neg h1, if_neg h2]
    exact ⟨rfl, rfl, fun x y => by simp [crop_imm]⟩

/-- C2 witness: a 4×2 buffer already has aspect 2 within tolerance, so the
crop returns it unchanged. -/
theorem C2_crop_center_wit :
    crop_to_aspect_center imgFourTwo 2 = imgFourTwo :=
  (C2_crop_center imgFourTwo 2 (by decide) (by decide) (by norm_num)).1
    (by norm_num [imgFourTwo])

/-! ### C7: crop rectangle stays inside the source -/

/-- C7 (confirmed): for every buffer with positive dimensions and either
preset target aspect ratio, the cropped output's dimensions never exceed
the source's, the crop rectangle (offset plus size per axis) lies fully
inside the source bounds, and the two offset subtractions never underflow:
`round(target_aspect*height) ≤ width` whenever the wide branch runs and
`round(width/target_aspect) ≤ height` whenever the tall branch runs. -/
theorem C7_crop_in_bounds (img : Image) (t : ℚ)
    (hw : 0 < img.width) (hh : 0 < img.height)
    (ht : t = 1080 / 566 ∨ t = 1080 / 1350) :
    (crop_to_aspect_center img t).width ≤ img.width
    ∧ (crop_to_aspect_center img t).height ≤ img.height
    ∧ (∃ x0 y0,
        x0 + (crop_to_aspect_center img t).width ≤ img.width
        ∧ y0 + (crop_to_aspect_center img t).height ≤ img.height
        ∧ ∀ x y, (crop_to_aspect_center img t).pixel x y =
            img.pixel (x0 + x) (y0 + y))
    ∧ (t < (img.width : ℚ) / (img.height : ℚ) →
        (round (t * (img.height : ℚ))).toNat ≤ img.width)
    ∧ ((img.width : ℚ) / (img.height : ℚ) ≤ t →
        (round ((img.width : ℚ) / t)).toNat ≤ img.height) := by
  have ht0 : 0 < t := by rcases ht with h | h <;> subst h <;> norm_num
  have hh0 : (0 : ℚ) < (img.height : ℚ) := by exact_mod_cast hh
  have hwide : t < (img.width : ℚ) / (img.height : ℚ) →
      (round (t * (img.height : ℚ))).toNat ≤ img.width := by
    intro hlt
    apply round_toNat_le_of_le
    have := (lt_div_iff hh0).mp hlt
    linarith
  have htall : (img.width : ℚ) / (img.height : ℚ) ≤ t →
      (round ((img.width : ℚ) / t)).toNat ≤ img.height := by
    intro hle
    apply round_toNat_le_of_le
    rw [div_le_iff ht0]
    have := (div_le_iff hh0).mp hle
    linarith
  have hmain : ∃ x0 y0,
      x0 + (crop_to_aspect_center img t).width ≤ img.width
      ∧ y0 + (crop_to_aspect_center img t).height ≤ img.height
      ∧ ∀ x y, (crop_to_aspect_center img t).pixel x y =
          img.pixel (x0 + x) (y0 + y) := by
    by_cases h1 : |(img.width : ℚ) / (img.height : ℚ) - t| < 1 / 1000000
    · refine ⟨0, 0, ?_, ?_, fun x y => ?_⟩ <;>
        (simp only [crop_to_aspect_center]; rw [if_pos h1]) <;>
        first | omega | simp
    · by_cases h2 : t < (img.width : ℚ) / (img.height : ℚ)
      · have hnw := hwide h2
        refine ⟨(img.width - (round (t * (img.height : ℚ))).toNat) / 2, 0,
          ?_, ?_, fun x y => ?_⟩ <;>
          (simp only [crop_to_aspect_center]; rw [if_neg h1, if_pos h2];
           simp only [crop_imm]) <;>
          first | omega | simp
      · have hnh := htall (le_of_not_lt h2)
        refine ⟨0, (img.height - (round ((img.width : ℚ) / t)).toNat) / 2,
          ?_, ?_, fun x y => ?_⟩ <;>
          (simp only [crop_to_aspect_center]; rw [if_neg h1, if_neg h2];
           simp only [crop_imm]) <;>
          first | omega | simp
  obtain ⟨x0, y0, hx, hy, hp⟩ := hmain
  exact ⟨by omega, by omega, ⟨x0, y0, hx, hy, hp⟩, hwide, htall⟩

/-- C7 witness: the crop of a 4×2 buffer to the horizontal preset aspect
stays within the source width. -/
theorem C7_crop_in_bounds_wit :
    (crop_to_aspect_center imgFourTwo (1080 / 566)).width ≤ imgFourTwo.width :=
  (C7_crop_in_bounds imgFourTwo (1080 / 566) (by decide) (by decide)
    (Or.inl rfl)).1

/-! ### C8: EXIF metadata failures are fail-open -/

/-- C8 (confirmed): every failure to read or parse EXIF metadata — I/O
error, corrupt or unsupported container, missing orientation tag, wrong
value type, empty value vector — leaves the original decoded buffer in use
unchanged, and an orientation-stage error never fails the processing of
the image: even the one `Err` case (`File::open`) is caught at the call
site and falls back to the original buffer. -/
theorem C8_exif_fail_open (img : Image) (e : ExifRead)
    (h : e = .ioError ∨ e = .containerError ∨ e = .noOrientationTag ∨
      e = .nonShortValue ∨ e = .emptyVector) :
    orient_stage e img = img
    ∧ (∀ e2, fix_orientation_main e2 img = .error () →
        orient_stage e2 img = img) := by
  constructor
  · rcases h with h | h | h | h | h <;> subst h <;> rfl
  · intro e2 h2
    simp [orient_stage, h2]

/-- C8 witness: a corrupt container leaves the 4×2 buffer untouched. -/
theorem C8_exif_fail_open_wit :
    orient_stage .containerError imgFourTwo = imgFourTwo :=
  (C8_exif_fail_open imgFourTwo .containerError (by decide)).1

/-! ### C4: no-upscaling resize decision -/

/-- C4 (confirmed): the resize step is a single per-axis-pair decision: if
the cropped width is below the target width or the cropped height below
the target height, the final output keeps the cropped buffer's own
dimensions; otherwise it has exactly the target dimensions. -/
theorem C4_resize_policy (cropped : Image) (tw th : ℕ) :
    (cropped.width < tw ∨ cropped.height < th →
      (resize_stage cropped tw th).width = cropped.width
      ∧ (resize_stage cropped tw th).height = cropped.height)
    ∧ (¬(cropped.width < tw ∨ cropped.height < th) →
      (resize_stage cropped tw th).width = tw
      ∧ (resize_stage cropped tw th).height = th) := by
  constructor <;> intro h
  · simp only [resize_stage, resize_exact]
    rw [if_pos h]
    exact ⟨rfl, rfl⟩
  · simp only [resize_stage, resize_exact]
    rw [if_neg h]
    exact ⟨rfl, rfl⟩

/-- C4 witness: a 4×2 cropped buffer is below the 1080×566 target, so the
output keeps width 4. -/
theorem C4_resize_policy_wit :
    (resize_stage imgFourTwo 1080 566).width = imgFourTwo.width :=
  ((C4_resize_policy imgFourTwo 1080 566).1 (Or.inl (by decide))).1

/-! ### C6: aspect selector presets and the Auto tie -/

/-- C6 (amended): both selectors return only the two presets — Horizontal
(1080, 566) and Vertical (1080, 1350) — and in Auto mode the main pipeline
(`src/main.rs`) selects Horizontal exactly when width ≥ height, so a square
image resolves to Horizontal there; the legacy variant
(`src/bin/script.rs`) uses the strict comparison width > height, so a
square image resolves to Vertical there. -/
theorem C6_select_target (w h : ℕ) (mode : Mode) :
    target_dims (resolve_mode .horizontal w h) = some (1080, 566)
    ∧ target_dims (resolve_mode .vertical w h) = some (1080, 1350)
    ∧ (h ≤ w → target_dims (resolve_mode .auto w h) = some (1080, 566))
    ∧ (w < h → target_dims (resolve_mode .auto w h) = some (1080, 1350))
    ∧ (∃ d, target_dims (resolve_mode mode w h) = some d
        ∧ (d = (1080, 566) ∨ d = (1080, 1350)))
    ∧ target_dims (resolve_mode .auto w w) = some (1080, 566)
    ∧ (h < w → select_target_script .auto w h = (1080, 566))
    ∧ (¬ h < w → select_target_script .auto w h = (1080, 1350))
    ∧ select_target_script .auto w w = (1080, 1350) := by
  refine ⟨rfl, rfl, fun hle => ?_, fun hlt => ?_, ?_, ?_, fun hgt => ?_,
    fun hng => ?_, ?_⟩
  · simp [resolve_mode, target_dims, hle, INSTAGRAM_WIDTH,
      INSTAGRAM_HORIZONTAL_HEIGHT]
  · rw [resolve_mode, if_neg (by omega)]
    rfl
  · cases mode with
    | auto =>
      by_cases hc : w ≥ h
      · exact ⟨(1080, 566), by simp [resolve_mode, target_dims, hc,
          INSTAGRAM_WIDTH, INSTAGRAM_HORIZONTAL_HEIGHT], Or.inl rfl⟩
      · exact ⟨(1080, 1350), by simp [resolve_mode, target_dims, hc,
          INSTAGRAM_WIDTH, INSTAGRAM_VERTICAL_HEIGHT], Or.inr rfl⟩
    | horizontal => exact ⟨(1080, 566), rfl, Or.inl rfl⟩
    | vertical => exact ⟨(1080, 1350), rfl, Or.inr rfl⟩
  · simp [resolve_mode, target_dims, INSTAGRAM_WIDTH,
      INSTAGRAM_HORIZONTAL_HEIGHT]
  · rw [select_target_script, if_pos hgt]
    rfl
  · rw [select_target_script, if_neg hng]
    rfl
  · rw [select_target_script, if_neg (by omega)]
    rfl

/-- C6 witness: in Auto mode a 600×500 image resolves to the horizontal
preset in the main pipeline. -/
theorem C6_select_target_wit :
    target_dims (resolve_mode .auto 600 500) = some (1080, 566) :=
  (C6_select_target 600 500 .auto).2.2.1 (by decide)

/-- C6 counterexample: the legacy selector resolves a square (500×500)
Auto-mode image to the Vertical preset (1080, 1350), not the Horizontal
preset (1080, 566) the claim requires for width = height. -/
theorem C6_cex :
    select_target_script .auto 500 500 = (1080, 1350)
    ∧ ((1080, 1350) : ℕ × ℕ) ≠ (1080, 566) :=
  ⟨rfl, by decide⟩

/-! ### C3: keep-source format and extension resolution -/

/-- C3 (amended): in the main pipeline (`src/main.rs`), keep-source keeps
the input file's extension on the output path unchanged and selects the
codec from that extension case-insensitively: jpg/jpeg sources encode as
JPEG, png as PNG, webp as WEBP, and any OTHER extension encodes as PNG
with the output extension left as the source's, not rewritten; a source
with no extension falls back to `jpg`.  Only the legacy variant
(`src/bin/script.rs`) maps other extensions to JPEG and rewrites the
output extension to `jpg`. -/
theorem C3_keep_source (ext : String) (q : ℕ)
    (hrec : ascii_lower ext ≠ "jpg" ∧ ascii_lower ext ≠ "jpeg"
      ∧ ascii_lower ext ≠ "png" ∧ ascii_lower ext ≠ "webp") :
    resolve_out_ext "keep" (some ext) = ext
    ∧ codec_for_ext (resolve_out_ext "keep" (some ext)) q = .png
    ∧ (∀ e, ascii_lower e = "jpg" ∨ ascii_lower e = "jpeg" →
        codec_for_ext e q = .jpeg q)
    ∧ (∀ e, ascii_lower e = "png" → codec_for_ext e q = .png)
    ∧ (∀ e, ascii_lower e = "webp" → codec_for_ext e q = .webp)
    ∧ resolve_out_ext "keep" none = "jpg"
    ∧ script_format_dispatch "keep" (some ext) = .ok (some ("jpg", .jpeg)) := by
  have hj : ¬(ascii_lower ext = "jpg" ∨ ascii_lower ext = "jpeg") := by
    rintro (hx | hx)
    exacts [hrec.1 hx, hrec.2.1 hx]
  have hre : resolve_out_ext "keep" (some ext) = ext := by
    simp only [resolve_out_ext]
    rw [if_neg (by decide), if_neg (by decide), if_neg (by decide)]
  refine ⟨hre, ?_, ?_, ?_, ?_, ?_, ?_⟩
  · rw [hre]
    simp only [codec_for_ext]
    rw [if_neg hj, if_neg hrec.2.2.1, if_neg hrec.2.2.2]
  · intro e he
    simp only [codec_for_ext]
    rw [if_pos he]
  · intro e he
    simp [codec_for_ext, he]
  · intro e he
    simp [codec_for_ext, he]
  · simp only [resolve_out_ext]
    rw [if_neg (by decide), if_neg (by decide), if_neg (by decide)]
  · simp [script_format_dispatch, hj, hrec.2.2.1, hrec.2.2.2]

/-- C3 witness: a `tiff` source under keep-source is encoded as PNG by the
main pipeline. -/
theorem C3_keep_source_wit :
    codec_for_ext (resolve_out_ext "keep" (some "tiff")) 80 = .png :=
  (C3_keep_source "tiff" 80 (by decide)).2.1

/-- C3 counterexample: keep-source on a `bmp` input keeps the `bmp`
extension (the claim says it is rewritten to match the resolved format)
and encodes PNG (the claim says the fallback is JPEG). -/
theorem C3_cex :
    resolve_out_ext "keep" (some "bmp") = "bmp"
    ∧ codec_for_ext (resolve_out_ext "keep" (some "bmp")) 100 = .png
    ∧ EncFormat.png ≠ .jpeg 100 :=
  ⟨by decide, by decide, by decide⟩

/-! ### C5: unrecognized format strings are not fatal -/

/-- C5 (amended): an unrecognized format string is not validated up front
and never terminates the process: the main pipeline (`src/main.rs`)
silently resolves it exactly like `keep`, and the legacy variant
(`src/bin/script.rs`) fails per file with a logged `Formato no soportado`
error that the dispatcher catches, producing one outcome per dispatched
file and continuing the batch. -/
theorem C5_format_not_fatal (format : String) (src_ext : Option String)
    (files : List (Option String))
    (h : ascii_lower format ≠ "jpeg" ∧ ascii_lower format ≠ "jpg"
      ∧ ascii_lower format ≠ "png" ∧ ascii_lower format ≠ "webp")
    (hk : format ≠ "keep") :
    resolve_out_ext format src_ext = resolve_out_ext "keep" src_ext
    ∧ (script_run_batch format files).length = files.length
    ∧ (∀ r ∈ script_run_batch format files,
        r = .error ("Formato no soportado: " ++ format)) := by
  have h1 : ¬(ascii_lower format = "jpeg" ∨ ascii_lower format = "jpg") := by
    rintro (hx | hx)
    exacts [h.1 hx, h.2.1 hx]
  have hf1 : format ≠ "jpeg" := fun hx => h.1 (by rw [hx]; decide)
  have hf2 : format ≠ "jpg" := fun hx => h.2.1 (by rw [hx]; decide)
  have hf3 : format ≠ "png" := fun hx => h.2.2.1 (by rw [hx]; decide)
  have hf4 : format ≠ "webp" := fun hx => h.2.2.2 (by rw [hx]; decide)
  have hdisp : ∀ se : Option String, script_format_dispatch format se
      = .error ("Formato no soportado: " ++ format) := by
    intro se
    simp only [script_format_dispatch]
    rw [if_neg (by rintro (hx | hx); exacts [hf1 hx, hf2 hx]),
      if_neg hf3, if_neg hf4, if_neg hk]
  refine ⟨?_, ?_, ?_⟩
  · simp only [resolve_out_ext]
    rw [if_neg h1, if_neg h.2.2.1, if_neg h.2.2.2,
      if_neg (by decide), if_neg (by decide), if_neg (by decide)]
  · simp [script_run_batch]
  · intro r hr
    rcases List.mem_map.mp hr with ⟨e, _, he⟩
    rw [← he, hdisp]

/-- C5 witness: with format string `gif` the legacy dispatcher still
produces one outcome for its one file — the batch is dispatched. -/
theorem C5_format_not_fatal_wit :
    (script_run_batch "gif" [(none : Option String)]).length = 1 :=
  (C5_format_not_fatal "gif" none [none] (by decide) (by decide)).2.1

/-- C5 counterexample: the format string `bogus` is not a fatal
configuration error: the main pipeline resolves it exactly like `keep`
and encodes without error, while the legacy variant yields a caught
per-file error for every dispatched file rather than terminating before
dispatch. -/
theorem C5_cex :
    resolve_out_ext "bogus" (some "png") = resolve_out_ext "keep" (some "png")
    ∧ codec_for_ext (resolve_out_ext "bogus" (some "png")) 90 = .png
    ∧ script_format_dispatch "bogus" (some "png")
        = .error "Formato no soportado: bogus"
    ∧ script_run_batch "bogus" [some "png", some "jpg"]
        = [.error "Formato no soportado: bogus",
          .error "Formato no soportado: bogus"] :=
  ⟨by decide, by decide, rfl, rfl⟩

/-! ### C9: output path preserves the relative component -/

/-- C9 (amended): in the main pipeline (`src/main.rs`), for every source
file under the input root the output path's component relative to the
output root equals the source's component relative to the input root,
except for the file extension; the legacy variant (`src/bin/script.rs`)
instead writes every output directly into the output root under the
source's file name, discarding the relative directory component. -/
theorem C9_path_round_trip (in_dir out_dir : List String) (p rel : Fpath)
    (new_ext : String) (h : relativeTo in_dir p = some rel) :
    relativeTo out_dir (out_path_main in_dir out_dir p new_ext)
      = some ⟨rel.dirs, rel.stem, some new_ext⟩
    ∧ (out_path_script out_dir p).dirs = out_dir
    ∧ (out_path_script out_dir p).stem = p.stem := by
  refine ⟨?_, rfl, rfl⟩
  have hpre : out_dir.isPrefixOf (out_dir ++ rel.dirs) = true := by
    rw [List.isPrefixOf_iff_prefix]
    exact List.prefix_append _ _
  simp only [out_path_main, h, Option.getD_some, set_ext]
  simp only [relativeTo, hpre, if_true, List.drop_left]

/-- C9 witness: `i/s/b.png` under input root `i` maps to `o/s/b.jpg` under
output root `o`, whose relative component is `s/b` as required. -/
theorem C9_path_round_trip_wit :
    relativeTo ["o"]
      (out_path_main ["i"] ["o"] ⟨["i", "s"], "b", some "png"⟩ "jpg")
      = some ⟨["s"], "b", some "jpg"⟩ :=
  (C9_path_round_trip ["i"] ["o"] ⟨["i", "s"], "b", some "png"⟩
    ⟨["s"], "b", some "png"⟩ "jpg" (by decide)).1

/-- C9 counterexample: for source `in/sub/a.png` under input root `in`,
the legacy variant's output relative to the output root has directory
component `[]`, not the source's relative component `["sub"]`. -/
theorem C9_cex :
    relativeTo ["in"] pInSub = some ⟨["sub"], "a", some "png"⟩
    ∧ relativeTo ["out"] (out_path_script ["out"] pInSub)
        = some ⟨[], "a", some "png"⟩
    ∧ (["sub"] : List String) ≠ [] :=
  ⟨by decide, by decide, by decide⟩

/-! ### C10: quality only influences JPEG output -/

/-- C10 (confirmed): whenever the resolved output encoding is not JPEG —
so it is PNG or WebP (including the PNG fallback arm) — the encoded output
is identical between two runs that differ only in the quality setting: the
quality parameter flows into the output only on the JPEG branch. -/
theorem C10_quality_indep (format : String) (src_ext : Option String)
    (q1 q2 : ℕ) (img : Image)
    (h : ascii_lower (resolve_out_ext format src_ext) ≠ "jpg"
      ∧ ascii_lower (resolve_out_ext format src_ext) ≠ "jpeg") :
    ((encode_main format src_ext q1 img).fmt = .png
      ∨ (encode_main format src_ext q1 img).fmt = .webp)
    ∧ encode_main format src_ext q1 img = encode_main format src_ext q2 img := by
  have h1 : ¬(ascii_lower (resolve_out_ext format src_ext) = "jpg"
      ∨ ascii_lower (resolve_out_ext format src_ext) = "jpeg") := by
    rintro (hx | hx)
    exacts [h.1 hx, h.2 hx]
  by_cases hp : ascii_lower (resolve_out_ext format src_ext) = "png"
  · have hc : ∀ q : ℕ, codec_for_ext (resolve_out_ext format src_ext) q
        = .png := by
      intro q
      simp only [codec_for_ext]
      rw [if_neg h1, if_pos hp]
    constructor
    · left
      simp only [encode_main]
      rw [hc]
    · simp only [encode_main]
      rw [hc, hc]
  · by_cases hw2 : ascii_lower (resolve_out_ext format src_ext) = "webp"
    · have hc : ∀ q : ℕ, codec_for_ext (resolve_out_ext format src_ext) q
          = .webp := by
        intro q
        simp only [codec_for_ext]
        rw [if_neg h1, if_neg hp, if_pos hw2]
      constructor
      · right
        simp only [encode_main]
        rw [hc]
      · simp only [encode_main]
        rw [hc, hc]
    · have hc : ∀ q : ℕ, codec_for_ext (resolve_out_ext format src_ext) q
          = .png := by
        intro q
        simp only [codec_for_ext]
        rw [if_neg h1, if_neg hp, if_neg hw2]
      constructor
      · left
        simp only [encode_main]
        rw [hc]
      · simp only [encode_main]
        rw [hc, hc]

/-- C10 witness: PNG output is byte-identical across qualities 10 and 90. -/
theorem C10_quality_indep_wit :
    encode_main "png" none 10 imgTwoOne = encode_main "png" none 90 imgTwoOne :=
  (C10_quality_indep "png" none 10 90 imgTwoOne (by decide)).2

end IGCrop
